import Mathlib

/-!
Shallow embedding of the font-renderer program (`src/main.py`) and proofs of
the specification's claims about it.

The program is a thin pipeline over the PIL imaging library:
`validate_spritesheet_name` fixes a sheet filename's extension, and
`render_font` rasterizes each requested character onto a padded canvas and
either saves each canvas as `<char>.png` (separate mode) or concatenates all
canvases horizontally into one sprite sheet (spritesheet mode).

The font/rasterization collaborator (PIL's `ImageFont` / `ImageDraw`) is
abstracted, exactly as the spec prescribes, as a structure providing
`getbbox : Char → Nat × Nat` (the width/height the code reads from
`font.getbbox(char)[2:]`) and a pixel-coverage predicate used by `draw.text`.
Pixel canvases are modelled as explicit row-major pixel buffers with a PIL
mode tag (`RGB` or `RGBA`); PIL semantics that the code relies on are
modelled faithfully:
  * `Image.new("RGBA", size, (r,g,b))` fills with alpha 255;
  * `Image.paste(im, box, mask)` demands a mask of mode `1`, `L`, `LA` or
    `RGBA`; an `RGB` mask raises `ValueError("bad transparency mask")`;
  * file writes are recorded as an ordered list of (filename, canvas) pairs,
    later writes to the same name overwriting earlier ones on disk.
-/

/-- A pixel with red, green, blue and alpha bands (each 0..255). -/
structure Pixel where
  r : Nat
  g : Nat
  b : Nat
  a : Nat
deriving DecidableEq, Repr

/-- An RGB triple, as configured for background and text colors. -/
structure Color3 where
  r : Nat
  g : Nat
  b : Nat
deriving DecidableEq, Repr

/-- PIL image mode: `RGB` has no alpha band, `RGBA` has one. -/
inductive Mode where
  | RGB : Mode
  | RGBA : Mode
deriving DecidableEq, Repr

/-- An in-memory pixel canvas: a PIL `Image` with its mode, size and
row-major pixel buffer. -/
structure Canvas where
  mode : Mode
  width : Nat
  height : Nat
  pixels : List (List Pixel)
deriving DecidableEq, Repr

/-- Background type: the `--bg_type` choice. -/
inductive BgType where
  | transparent : BgType
  | filled : BgType
deriving DecidableEq, Repr

/-- Export type: the `--export_type` choice. -/
inductive ExportType where
  | separate : ExportType
  | spritesheet : ExportType
deriving DecidableEq, Repr

/-- The four paddings `(left, top, right, bottom)`, non-negative per the
spec's data model. -/
structure Padding where
  left : Nat
  top : Nat
  right : Nat
  bottom : Nat
deriving DecidableEq, Repr

/-- The immutable render request: every parameter of `render_font`. -/
structure RenderRequest where
  font_path : String
  output_folder : String
  characters : List Char
  font_size : Nat
  padding : Padding
  bg_type : BgType
  export_type : ExportType
  spritesheet_name : String
  bg_color : Color3
  text_color : Color3
deriving DecidableEq, Repr

/-- The abstract font collaborator: `getbbox` returns the pair the code
reads as `(char_width, char_height)` from `font.getbbox(char)[2:]`, and
`coverage ch dx dy` tells whether drawing `ch` inks the pixel at offset
`(dx, dy)` from the text origin. -/
structure FontCollab where
  getbbox : Char → Nat × Nat
  coverage : Char → Nat → Nat → Bool

/-- Python's `name.lower()` on the characters of a string. -/
def pyLower (s : String) : String :=
  ⟨s.data.map Char.toLower⟩

/-- Python's `s.endswith(t)`: `t` is a suffix of `s`. -/
def pyEndswith (s t : String) : Bool :=
  decide (t.data <:+ s.data)

/-- `validate_spritesheet_name` (main.py lines 5-10): if the name does not
end case-insensitively in `".png"`, warn and append `".png"`. The returned
Bool records whether the warning was printed. -/
def validate_spritesheet_name (name : String) : String × Bool :=
  if pyEndswith (pyLower name) ".png" then (name, false)
  else (name ++ ".png", true)

/-- `Image.new(mode, (w, h), fill)`: a `w × h` canvas filled with one pixel
value. -/
def imageNew (m : Mode) (w h : Nat) (fill : Pixel) : Canvas :=
  ⟨m, w, h, List.replicate h (List.replicate w fill)⟩

/-- Read a pixel of a canvas (0 outside the buffer). -/
def getPixel (c : Canvas) (x y : Nat) : Pixel :=
  (c.pixels.getD y []).getD x ⟨0, 0, 0, 0⟩

/-- `draw.text((tx, ty), ch, font, fill)`: ink the fill color (at full
alpha) wherever the collaborator's coverage says the glyph marks the
canvas, leaving every other pixel unchanged. -/
def drawText (img : Canvas) (tx ty : Nat) (ch : Char) (font : FontCollab)
    (fill : Color3) : Canvas :=
  { img with
    pixels := (List.range img.height).map fun y =>
      (List.range img.width).map fun x =>
        if tx ≤ x ∧ ty ≤ y ∧ font.coverage ch (x - tx) (y - ty) then
          ⟨fill.r, fill.g, fill.b, 255⟩
        else getPixel img x y }

/-- One iteration of the character loop up to the draw (main.py lines
42-59): measure the glyph, allocate the padded canvas (transparent RGBA or
background-filled RGB), and draw the character at `(padding.left,
padding.top)` in the text color. -/
def glyphCanvas (font : FontCollab) (req : RenderRequest) (ch : Char) : Canvas :=
  let char_width := (font.getbbox ch).1
  let char_height := (font.getbbox ch).2
  let img_width := char_width + req.padding.left + req.padding.right
  let img_height := char_height + req.padding.top + req.padding.bottom
  let image :=
    if req.bg_type = BgType.transparent then
      imageNew Mode.RGBA img_width img_height ⟨0, 0, 0, 0⟩
    else
      imageNew Mode.RGB img_width img_height
        ⟨req.bg_color.r, req.bg_color.g, req.bg_color.b, 255⟩
  drawText image req.padding.left req.padding.top ch font req.text_color

/-- PIL band compositing used by `paste` with a mask band value `a`. -/
def blendBand (d s a : Nat) : Nat :=
  (s * a + d * (255 - a)) / 255

/-- Composite a source pixel over a destination pixel using the source's
own alpha as the mask (the code passes the image itself as the mask). -/
def blend (d s : Pixel) : Pixel :=
  ⟨blendBand d.r s.r s.a, blendBand d.g s.g s.a,
   blendBand d.b s.b s.a, blendBand d.a s.a s.a⟩

/-- `dst.paste(src, (px, py), src)` (main.py line 77): PIL accepts only
`1`, `L`, `LA` or `RGBA` masks, so pasting an `RGB` image with itself as
mask raises `ValueError("bad transparency mask")`; otherwise the source is
composited over the destination rectangle through its own alpha. -/
def pasteAt (dst src : Canvas) (px py : Nat) : Except String Canvas :=
  if src.mode = Mode.RGB then Except.error "bad transparency mask"
  else Except.ok
    { dst with
      pixels := (List.range dst.height).map fun y =>
        (List.range dst.width).map fun x =>
          if px ≤ x ∧ x < px + src.width ∧ py ≤ y ∧ y < py + src.height then
            blend (getPixel dst x y) (getPixel src (x - px) (y - py))
          else getPixel dst x y }

/-- The sprite-sheet allocation (main.py lines 70-74): always an `RGBA`
canvas, fully transparent in transparent mode and filled with the
background color (alpha 255, PIL's reading of an RGB triple for an RGBA
image) otherwise. -/
def sheetCanvas (req : RenderRequest) (total_width max_height : Nat) : Canvas :=
  imageNew Mode.RGBA total_width max_height
    (if req.bg_type = BgType.transparent then ⟨0, 0, 0, 0⟩
     else ⟨req.bg_color.r, req.bg_color.g, req.bg_color.b, 255⟩)

/-- The paste positions of the sheet loop (main.py lines 75-78): starting
at `x_offset = x`, each image is pasted at `(x_offset, 0)`, and the offset
then advances by that image's width. -/
def placements (x : Nat) : List Canvas → List (Canvas × Nat × Nat)
  | [] => []
  | img :: rest => (img, x, 0) :: placements (x + img.width) rest

/-- Run the pastes of the sheet loop in order; the first PIL error aborts
the run. -/
def pasteSeq : Canvas → List (Canvas × Nat × Nat) → Except String Canvas
  | sheet, [] => Except.ok sheet
  | sheet, (img, x, y) :: rest =>
    match pasteAt sheet img x y with
    | Except.error e => Except.error e
    | Except.ok s => pasteSeq s rest

/-- The files written by a run, in write order, with the final canvas of
each. -/
structure RenderResult where
  files : List (String × Canvas)
  warned : Bool
deriving DecidableEq, Repr

/-- `render_font` (main.py lines 12-82). Separate mode saves each glyph
canvas as `<char>.png`; spritesheet mode accumulates the canvases, their
total width and their maximum height, then (only when at least one image
was retained) allocates the sheet, pastes every image left to right using
itself as the mask, and saves it under the validated name. A PIL error
(the bad-mask `ValueError`) propagates and aborts the run. -/
def render_font (font : FontCollab) (req : RenderRequest) :
    Except String RenderResult :=
  let v :=
    if req.export_type = ExportType.spritesheet then
      validate_spritesheet_name req.spritesheet_name
    else (req.spritesheet_name, false)
  let imgs := req.characters.map (glyphCanvas font req)
  if req.export_type = ExportType.separate then
    Except.ok ⟨req.characters.map
      (fun ch => (String.singleton ch ++ ".png", glyphCanvas font req ch)), v.2⟩
  else
    let total_width := (imgs.map Canvas.width).sum
    let max_height := (imgs.map Canvas.height).foldl Nat.max 0
    if imgs.isEmpty then Except.ok ⟨[], v.2⟩
    else
      match pasteSeq (sheetCanvas req total_width max_height) (placements 0 imgs) with
      | Except.error e => Except.error e
      | Except.ok sheet => Except.ok ⟨[(v.1, sheet)], v.2⟩

/-- The set of file names present on disk after a run: duplicates written
later overwrite earlier ones, leaving one file per distinct name. -/
def diskNames (files : List (String × Canvas)) : Finset String :=
  (files.map Prod.fst).toFinset

/-! ### Concrete fixtures for witnesses and counterexamples -/

/-- A small concrete font collaborator: every glyph has bounding box
`(1, 2)` and inks no pixel. -/
def demoFont : FontCollab := ⟨fun _ => (1, 2), fun _ _ _ => false⟩

/-- A degenerate collaborator whose bounding boxes are `(0, 0)`. -/
def zeroFont : FontCollab := ⟨fun _ => (0, 0), fun _ _ _ => false⟩

/-- A transparent spritesheet request over two characters. -/
def reqSheetT : RenderRequest :=
  ⟨"f.ttf", "out", ['A', 'B'], 64, ⟨1, 1, 1, 1⟩, BgType.transparent,
   ExportType.spritesheet, "sheet", ⟨255, 255, 255⟩, ⟨0, 0, 0⟩⟩

/-- A filled spritesheet request over one character. -/
def reqSheetF : RenderRequest :=
  ⟨"f.ttf", "out", ['A'], 64, ⟨1, 1, 1, 1⟩, BgType.filled,
   ExportType.spritesheet, "sheet.png", ⟨9, 9, 9⟩, ⟨0, 0, 0⟩⟩

/-- A separate-mode request with a duplicated character. -/
def reqSep : RenderRequest :=
  ⟨"f.ttf", "out", ['A', 'B', 'A'], 64, ⟨1, 1, 1, 1⟩, BgType.transparent,
   ExportType.separate, "spritesheet.png", ⟨255, 255, 255⟩, ⟨0, 0, 0⟩⟩

/-- A request with all paddings zero. -/
def reqZeroPad : RenderRequest :=
  ⟨"f.ttf", "out", ['A'], 64, ⟨0, 0, 0, 0⟩, BgType.transparent,
   ExportType.separate, "spritesheet.png", ⟨255, 255, 255⟩, ⟨0, 0, 0⟩⟩

/-- A spritesheet request over no characters at all. -/
def reqEmptySheet : RenderRequest :=
  ⟨"f.ttf", "out", [], 64, ⟨1, 1, 1, 1⟩, BgType.transparent,
   ExportType.spritesheet, "sheet", ⟨255, 255, 255⟩, ⟨0, 0, 0⟩⟩

/-! ### Helper lemmas about the embedding -/

/-- Drawing changes only the pixel buffer, never the canvas geometry. -/
theorem drawText_width (img : Canvas) (tx ty : Nat) (ch : Char)
    (font : FontCollab) (fill : Color3) :
    (drawText img tx ty ch font fill).width = img.width := rfl

/-- Drawing changes only the pixel buffer, never the canvas geometry. -/
theorem drawText_height (img : Canvas) (tx ty : Nat) (ch : Char)
    (font : FontCollab) (fill : Color3) :
    (drawText img tx ty ch font fill).height = img.height := rfl

/-- The width of a per-glyph canvas is the measured glyph width plus the
left and right paddings, in either background mode. -/
theorem glyphCanvas_width (font : FontCollab) (req : RenderRequest) (ch : Char) :
    (glyphCanvas font req ch).width =
      (font.getbbox ch).1 + req.padding.left + req.padding.right := by
  rw [glyphCanvas]
  by_cases h : req.bg_type = BgType.transparent <;> simp [h, drawText_width, imageNew]

/-- The height of a per-glyph canvas is the measured glyph height plus the
top and bottom paddings, in either background mode. -/
theorem glyphCanvas_height (font : FontCollab) (req : RenderRequest) (ch : Char) :
    (glyphCanvas font req ch).height =
      (font.getbbox ch).2 + req.padding.top + req.padding.bottom := by
  rw [glyphCanvas]
  by_cases h : req.bg_type = BgType.transparent <;> simp [h, drawText_height, imageNew]

/-- The mode of a per-glyph canvas: `RGBA` in transparent mode, `RGB` in
filled mode. -/
theorem glyphCanvas_mode (font : FontCollab) (req : RenderRequest) (ch : Char) :
    (glyphCanvas font req ch).mode =
      (if req.bg_type = BgType.transparent then Mode.RGBA else Mode.RGB) := by
  rw [glyphCanvas]
  by_cases h : req.bg_type = BgType.transparent <;> simp [h, drawText, imageNew]

/-- A successful paste preserves the destination geometry. -/
theorem pasteAt_dims (dst src : Canvas) (px py : Nat) (out : Canvas)
    (h : pasteAt dst src px py = Except.ok out) :
    out.width = dst.width ∧ out.height = dst.height := by
  rw [pasteAt] at h
  split at h
  · exact absurd h (by simp)
  · injection h with h
    subst h
    exact ⟨rfl, rfl⟩

/-- A successful paste sequence preserves the sheet geometry. -/
theorem pasteSeq_dims (l : List (Canvas × Nat × Nat)) (s out : Canvas)
    (h : pasteSeq s l = Except.ok out) :
    out.width = s.width ∧ out.height = s.height := by
  induction l generalizing s with
  | nil =>
    rw [pasteSeq] at h
    injection h with h
    subst h
    exact ⟨rfl, rfl⟩
  | cons p rest ih =>
    obtain ⟨img, x, y⟩ := p
    rw [pasteSeq] at h
    split at h
    · exact absurd h (by simp)
    · rename_i s2 heq
      obtain ⟨hw, hh⟩ := pasteAt_dims s img x y s2 heq
      obtain ⟨hw2, hh2⟩ := ih s2 h
      exact ⟨hw2.trans hw, hh2.trans hh⟩

/-- The accumulator of a left `max` fold never decreases. -/
theorem foldl_max_init_le (l : List Nat) (a : Nat) : a ≤ l.foldl Nat.max a := by
  induction l generalizing a with
  | nil => exact Nat.le_refl a
  | cons x xs ih => exact Nat.le_trans (Nat.le_max_left a x) (ih (Nat.max a x))

/-- Every element of the list is bounded by the left `max` fold. -/
theorem le_foldl_max (l : List Nat) (a x : Nat) :
    x ∈ l → x ≤ l.foldl Nat.max a := by
  induction l generalizing a with
  | nil => intro hx; cases hx
  | cons y ys ih =>
    intro hx
    rw [List.foldl_cons]
    rcases List.mem_cons.mp hx with h | h
    · subst h
      exact Nat.le_trans (Nat.le_max_right a x) (foldl_max_init_le ys _)
    · exact ih _ h

/-- A left `max` fold yields either a list element or the accumulator. -/
theorem foldl_max_mem (l : List Nat) (a : Nat) :
    l.foldl Nat.max a ∈ l ∨ l.foldl Nat.max a = a := by
  induction l generalizing a with
  | nil => exact Or.inr rfl
  | cons y ys ih =>
    rw [List.foldl_cons]
    rcases ih (Nat.max a y) with h | h
    · exact Or.inl (List.mem_cons_of_mem _ h)
    · rw [h]
      rcases Nat.le_total a y with h2 | h2
      · have h3 : Nat.max a y = y := Nat.max_eq_right h2
        exact Or.inl (by rw [h3]; exact List.mem_cons_self _ _)
      · have h3 : Nat.max a y = a := Nat.max_eq_left h2
        exact Or.inr h3

/-- `placements` lays out exactly one paste per retained image. -/
theorem placements_length (x : Nat) (l : List Canvas) :
    (placements x l).length = l.length := by
  induction l generalizing x with
  | nil => rfl
  | cons img rest ih =>
    rw [placements]
    simp [ih]

/-- The `i`-th paste of the sheet loop places the `i`-th retained image at
`x` plus the total width of the images before it, and at vertical offset
`0`. -/
theorem placements_getElem (l : List Canvas) (x i : Nat) (h : i < l.length) :
    (placements x l)[i]? =
      some (l.get ⟨i, h⟩, x + ((l.take i).map Canvas.width).sum, 0) := by
  induction l generalizing x i with
  | nil => cases h
  | cons img rest ih =>
    cases i with
    | zero => simp [placements]
    | succ j =>
      have hj : j < rest.length := Nat.lt_of_succ_lt_succ h
      have hrec := ih (x + img.width) j hj
      simp only [placements, List.getElem?_cons_succ, hrec, List.get_cons_succ,
        List.take_succ_cons, List.map_cons, List.sum_cons]
      rw [Nat.add_assoc]

/-- `toFinset` of a mapped list is the image of the list's `toFinset`. -/
theorem toFinset_map_eq_image {α β : Type} [DecidableEq α] [DecidableEq β]
    (f : α → β) (l : List α) :
    (l.map f).toFinset = l.toFinset.image f := by
  induction l with
  | nil => rfl
  | cons a as ih => simp [ih]

/-- Distinct characters give distinct `<char>.png` names. -/
theorem singleton_png_injective :
    Function.Injective (fun ch => String.singleton ch ++ ".png") := by
  intro a b h
  have h2 := congrArg String.data h
  have h3 : a :: ".png".data = b :: ".png".data := h2
  injection h3

/-- The `max` fold with accumulator `0` over a nonempty list is one of its
elements. -/
theorem foldl_max_zero_mem (l : List Nat) (hl : l ≠ []) :
    l.foldl Nat.max 0 ∈ l := by
  rcases foldl_max_mem l 0 with h | h
  · exact h
  · cases l with
    | nil => exact absurd rfl hl
    | cons x xs =>
      have hx : x ≤ (x :: xs).foldl Nat.max 0 :=
        le_foldl_max _ _ _ (List.mem_cons_self _ _)
      rw [h] at hx ⊢
      have hx0 : x = 0 := Nat.le_zero.mp hx
      rw [← hx0]
      exact List.mem_cons_self _ _

/-! ### The claims -/

/-- Claim C1: in sheet export mode, for every non-empty character sequence,
any composed sheet canvas has width equal to the sum over all characters of
(glyph bbox width + left padding + right padding) and height equal to the
running maximum over all characters of (glyph bbox height + top padding +
bottom padding); that height both bounds every per-glyph canvas height and
is attained by one of them. -/
theorem sheet_canvas_dims (font : FontCollab) (req : RenderRequest)
    (res : RenderResult)
    (hmode : req.export_type = ExportType.spritesheet)
    (hne : req.characters ≠ [])
    (hok : render_font font req = Except.ok res) :
    ∃ nm sheet, res.files = [(nm, sheet)] ∧
      sheet.width = (req.characters.map (fun ch =>
        (font.getbbox ch).1 + req.padding.left + req.padding.right)).sum ∧
      sheet.height = (req.characters.map (fun ch =>
        (font.getbbox ch).2 + req.padding.top + req.padding.bottom)).foldl Nat.max 0 ∧
      (∀ hgt ∈ req.characters.map (fun ch =>
        (font.getbbox ch).2 + req.padding.top + req.padding.bottom),
        hgt ≤ sheet.height) ∧
      sheet.height ∈ req.characters.map (fun ch =>
        (font.getbbox ch).2 + req.padding.top + req.padding.bottom) := by
  rw [render_font] at hok
  rw [hmode] at hok
  have hne2 : (List.map (glyphCanvas font req) req.characters).isEmpty = false := by
    simp [hne]
  simp only [hne2, if_true, ite_true, reduceCtorEq, if_false, ite_false,
    Bool.false_eq_true] at hok
  split at hok
  · exact absurd hok (by simp)
  · rename_i sheet heq
    injection hok with hok
    subst hok
    have hmap : List.map Canvas.height (List.map (glyphCanvas font req) req.characters) =
        req.characters.map (fun ch =>
          (font.getbbox ch).2 + req.padding.top + req.padding.bottom) := by
      rw [List.map_map]
      apply List.map_congr_left
      intro ch _
      exact glyphCanvas_height font req ch
    have hh : sheet.height = (req.characters.map (fun ch =>
        (font.getbbox ch).2 + req.padding.top + req.padding.bottom)).foldl Nat.max 0 := by
      have hd := (pasteSeq_dims _ _ _ heq).2
      rw [hd]
      show List.foldl Nat.max 0
        (List.map Canvas.height (List.map (glyphCanvas font req) req.characters)) = _
      rw [hmap]
    refine ⟨(validate_spritesheet_name req.spritesheet_name).1, sheet, rfl, ?_, hh, ?_, ?_⟩
    · have hd := (pasteSeq_dims _ _ _ heq).1
      rw [hd]
      show (List.map Canvas.width (List.map (glyphCanvas font req) req.characters)).sum = _
      rw [List.map_map]
      congr 1
      apply List.map_congr_left
      intro ch _
      exact glyphCanvas_width font req ch
    · intro hgt hmem
      rw [hh]
      exact le_foldl_max _ _ _ hmem
    · rw [hh]
      apply foldl_max_zero_mem
      simp [hne]

/-- The transparent two-character sheet run used as a witness. -/
def resSheetT : RenderResult :=
  (render_font demoFont reqSheetT).toOption.getD ⟨[], false⟩

/-- Witness for `sheet_canvas_dims` at the concrete transparent request
`reqSheetT`. -/
theorem sheet_canvas_dims_witness :
    ∃ nm sheet, resSheetT.files = [(nm, sheet)] ∧
      sheet.width = (reqSheetT.characters.map (fun ch =>
        (demoFont.getbbox ch).1 + reqSheetT.padding.left + reqSheetT.padding.right)).sum ∧
      sheet.height = (reqSheetT.characters.map (fun ch =>
        (demoFont.getbbox ch).2 + reqSheetT.padding.top + reqSheetT.padding.bottom)).foldl Nat.max 0 ∧
      (∀ hgt ∈ reqSheetT.characters.map (fun ch =>
        (demoFont.getbbox ch).2 + reqSheetT.padding.top + reqSheetT.padding.bottom),
        hgt ≤ sheet.height) ∧
      sheet.height ∈ reqSheetT.characters.map (fun ch =>
        (demoFont.getbbox ch).2 + reqSheetT.padding.top + reqSheetT.padding.bottom) :=
  sheet_canvas_dims demoFont reqSheetT resSheetT rfl (by decide) rfl

/-- Claim C2: the name validator returns a name that always ends
case-insensitively in `".png"`; it appends `".png"` exactly once and warns
when the input did not already end in it (any letter case), and returns
the input unchanged without warning when it did. -/
theorem validate_spritesheet_name_spec (name : String) :
    validate_spritesheet_name name =
      (if pyEndswith (pyLower name) ".png" then (name, false)
       else (name ++ ".png", true)) ∧
    pyEndswith (pyLower (validate_spritesheet_name name).1) ".png" = true := by
  refine ⟨rfl, ?_⟩
  rw [validate_spritesheet_name]
  by_cases h : pyEndswith (pyLower name) ".png" = true
  · rw [if_pos h]
    exact h
  · rw [if_neg h]
    show decide (".png".data <:+ ((name ++ ".png").data.map Char.toLower)) = true
    rw [decide_eq_true_eq, String.data_append, List.map_append]
    have h2 : (".png".data).map Char.toLower = ".png".data := by decide
    rw [h2]
    exact List.suffix_append _ _

/-- Claim C3 counterexample: with a glyph whose bounding box is `(0, 0)`
and all-zero paddings, the per-glyph canvas is `0 × 0`, so its dimensions
are not positive. -/
theorem glyph_canvas_positivity_cex :
    (glyphCanvas zeroFont reqZeroPad 'A').width = 0 ∧
    (glyphCanvas zeroFont reqZeroPad 'A').height = 0 := by decide

/-- Claim C3 (amended): every per-glyph canvas, for every character, has
width = glyph bbox width + left padding + right padding and height =
glyph bbox height + top padding + bottom padding; each dimension is
positive whenever the corresponding bounding-box dimension is positive. -/
theorem glyph_canvas_dims (font : FontCollab) (req : RenderRequest) (ch : Char) :
    (glyphCanvas font req ch).width =
      (font.getbbox ch).1 + req.padding.left + req.padding.right ∧
    (glyphCanvas font req ch).height =
      (font.getbbox ch).2 + req.padding.top + req.padding.bottom ∧
    (0 < (font.getbbox ch).1 → 0 < (glyphCanvas font req ch).width) ∧
    (0 < (font.getbbox ch).2 → 0 < (glyphCanvas font req ch).height) := by
  have h1 := glyphCanvas_width font req ch
  have h2 := glyphCanvas_height font req ch
  exact ⟨h1, h2, by omega, by omega⟩

/-- Witness for `glyph_canvas_dims` at the concrete font `demoFont`, with
both positivity hypotheses discharged. -/
theorem glyph_canvas_dims_witness :
    (glyphCanvas demoFont reqSheetT 'A').width =
      (demoFont.getbbox 'A').1 + reqSheetT.padding.left + reqSheetT.padding.right ∧
    (glyphCanvas demoFont reqSheetT 'A').height =
      (demoFont.getbbox 'A').2 + reqSheetT.padding.top + reqSheetT.padding.bottom ∧
    0 < (glyphCanvas demoFont reqSheetT 'A').width ∧
    0 < (glyphCanvas demoFont reqSheetT 'A').height :=
  ⟨(glyph_canvas_dims demoFont reqSheetT 'A').1,
   (glyph_canvas_dims demoFont reqSheetT 'A').2.1,
   (glyph_canvas_dims demoFont reqSheetT 'A').2.2.1 (by decide),
   (glyph_canvas_dims demoFont reqSheetT 'A').2.2.2 (by decide)⟩

/-- Claim C4: in sheet mode the retained glyph canvases are pasted left to
right in input order: the `i`-th paste of the loop places the `i`-th glyph
canvas at x-offset equal to the sum of the widths of all preceding glyph
canvases, and at y-offset `0`. -/
theorem sheet_paste_positions (font : FontCollab) (req : RenderRequest) (i : Nat)
    (hmode : req.export_type = ExportType.spritesheet)
    (hi : i < req.characters.length) :
    (placements 0 (req.characters.map (glyphCanvas font req)))[i]? =
      some ((req.characters.map (glyphCanvas font req)).get ⟨i, by simpa using hi⟩,
        (((req.characters.map (glyphCanvas font req)).take i).map Canvas.width).sum,
        0) := by
  have h := placements_getElem (req.characters.map (glyphCanvas font req)) 0 i
    (by simpa using hi)
  simpa using h

/-- Witness for `sheet_paste_positions` at index 1 of the concrete request
`reqSheetT`. -/
theorem sheet_paste_positions_witness :
    (placements 0 (reqSheetT.characters.map (glyphCanvas demoFont reqSheetT)))[1]? =
      some ((reqSheetT.characters.map (glyphCanvas demoFont reqSheetT)).get
          ⟨1, by simpa using (by decide : 1 < reqSheetT.characters.length)⟩,
        (((reqSheetT.characters.map (glyphCanvas demoFont reqSheetT)).take 1).map
          Canvas.width).sum,
        0) :=
  sheet_paste_positions demoFont reqSheetT 1 rfl (by decide)

/-- Claim C5 (code bug): in filled background mode the glyph canvases are
`RGB` images, and pasting one with itself as the mask is rejected by PIL,
so a filled-mode sprite-sheet run aborts with the bad-transparency-mask
`ValueError` instead of pasting every retained glyph canvas. -/
theorem filled_sheet_paste_fails :
    render_font demoFont reqSheetF = Except.error "bad transparency mask" := rfl

/-- Claim C6 counterexample: in filled background mode the sheet canvas is
not allocated per the same rule as the individual glyph canvases: the
glyph rule yields a non-alpha `RGB` canvas, while the sheet is allocated
as an alpha-capable `RGBA` canvas. -/
theorem sheet_not_same_rule_cex :
    (sheetCanvas reqSheetF 3 3).mode = Mode.RGBA ∧
    (glyphCanvas demoFont reqSheetF 'A').mode = Mode.RGB ∧
    ¬ (sheetCanvas reqSheetF 3 3).mode = (glyphCanvas demoFont reqSheetF 'A').mode := by
  decide

/-- Claim C6 (amended): the sheet canvas is always allocated alpha-capable
(`RGBA`): fully transparent (every pixel `(0,0,0,0)`) when background mode
is transparent, and otherwise filled with the configured background color
at full opacity, so before any paste every sheet pixel equals the
configured background color (with alpha 255) in filled mode. -/
theorem sheet_canvas_fill (req : RenderRequest) (tw mh : Nat) :
    (sheetCanvas req tw mh).mode = Mode.RGBA ∧
    (sheetCanvas req tw mh).width = tw ∧
    (sheetCanvas req tw mh).height = mh ∧
    (sheetCanvas req tw mh).pixels = List.replicate mh (List.replicate tw
      (if req.bg_type = BgType.transparent then ⟨0, 0, 0, 0⟩
       else ⟨req.bg_color.r, req.bg_color.g, req.bg_color.b, 255⟩)) :=
  ⟨rfl, rfl, rfl, rfl⟩

/-- Claim C7: a spritesheet run over the empty character sequence neither
fails nor writes any file: the zero-retained-images guard skips the sheet
entirely. -/
theorem empty_sheet_no_file (font : FontCollab) (req : RenderRequest)
    (hmode : req.export_type = ExportType.spritesheet)
    (hempty : req.characters = []) :
    render_font font req =
      Except.ok ⟨[], (validate_spritesheet_name req.spritesheet_name).2⟩ := by
  rw [render_font, hmode, hempty]
  simp

/-- Witness for `empty_sheet_no_file` at the concrete request
`reqEmptySheet`. -/
theorem empty_sheet_no_file_witness :
    render_font demoFont reqEmptySheet =
      Except.ok ⟨[], (validate_spritesheet_name reqEmptySheet.spritesheet_name).2⟩ :=
  empty_sheet_no_file demoFont reqEmptySheet rfl rfl

/-- Claim C8: a separate-mode run succeeds and writes exactly the per-glyph
files, in input order, each named `<char>.png` and holding that glyph's
canvas; the number of files surviving on disk equals the number of
distinct characters (later duplicates overwrite earlier ones), and no
sheet file is written. -/
theorem separate_mode_files (font : FontCollab) (req : RenderRequest)
    (res : RenderResult)
    (hmode : req.export_type = ExportType.separate)
    (hne : req.characters ≠ [])
    (hok : render_font font req = Except.ok res) :
    res.files = req.characters.map
      (fun ch => (String.singleton ch ++ ".png", glyphCanvas font req ch)) ∧
    (diskNames res.files).card = req.characters.toFinset.card := by
  rw [render_font, hmode] at hok
  simp only [if_true, ite_true, reduceCtorEq, ite_false, if_false] at hok
  injection hok with hok
  subst hok
  refine ⟨rfl, ?_⟩
  show ((req.characters.map
    (fun ch => (String.singleton ch ++ ".png", glyphCanvas font req ch))).map
      Prod.fst).toFinset.card = _
  rw [List.map_map]
  show (req.characters.map (fun ch => String.singleton ch ++ ".png")).toFinset.card = _
  rw [toFinset_map_eq_image]
  exact Finset.card_image_of_injective _ singleton_png_injective

/-- The separate-mode run with a duplicate character used as a witness. -/
def resSep : RenderResult :=
  (render_font demoFont reqSep).toOption.getD ⟨[], false⟩

/-- Witness for `separate_mode_files` at the concrete request `reqSep`,
whose characters `"ABA"` contain a duplicate. -/
theorem separate_mode_files_witness :
    resSep.files = reqSep.characters.map
      (fun ch => (String.singleton ch ++ ".png", glyphCanvas demoFont reqSep ch)) ∧
    (diskNames resSep.files).card = reqSep.characters.toFinset.card :=
  separate_mode_files demoFont reqSep resSep rfl (by decide) rfl

/-- Claim C9: the render is deterministic: with an identical font
collaborator, two requests that agree on every field (font path, output
directory, characters, font size, padding, background mode, export mode,
sheet filename, background color, text color) produce identical outputs
(the same filenames, canvases and warnings, or the same error). -/
theorem render_deterministic (font : FontCollab) (r1 r2 : RenderRequest)
    (h1 : r1.font_path = r2.font_path)
    (h2 : r1.output_folder = r2.output_folder)
    (h3 : r1.characters = r2.characters)
    (h4 : r1.font_size = r2.font_size)
    (h5 : r1.padding = r2.padding)
    (h6 : r1.bg_type = r2.bg_type)
    (h7 : r1.export_type = r2.export_type)
    (h8 : r1.spritesheet_name = r2.spritesheet_name)
    (h9 : r1.bg_color = r2.bg_color)
    (h10 : r1.text_color = r2.text_color) :
    render_font font r1 = render_font font r2 := by
  have h : r1 = r2 := by
    cases r1
    cases r2
    simp_all
  rw [h]

/-- A request written out field for field identically to `reqSep`. -/
def reqSepTwin : RenderRequest :=
  ⟨"f.ttf", "out", ['A', 'B', 'A'], 64, ⟨1, 1, 1, 1⟩, BgType.transparent,
   ExportType.separate, "spritesheet.png", ⟨255, 255, 255⟩, ⟨0, 0, 0⟩⟩

/-- Witness for `render_deterministic` on the concrete twin requests
`reqSep` and `reqSepTwin`. -/
theorem render_deterministic_witness :
    render_font demoFont reqSep = render_font demoFont reqSepTwin :=
  render_deterministic demoFont reqSep reqSepTwin rfl rfl rfl rfl rfl rfl rfl rfl
    rfl rfl

/-- Claim C10: in transparent background mode the configured background
color is never read: two runs that differ only in `bg_color` produce
identical outputs (all per-glyph canvases and any composed sheet
included). -/
theorem transparent_bg_color_independent (font : FontCollab)
    (fp outf : String) (chars : List Char) (fs : Nat) (pad : Padding)
    (et : ExportType) (ssn : String) (c1 c2 tc : Color3) :
    render_font font
      ⟨fp, outf, chars, fs, pad, BgType.transparent, et, ssn, c1, tc⟩ =
    render_font font
      ⟨fp, outf, chars, fs, pad, BgType.transparent, et, ssn, c2, tc⟩ := rfl
